import Mathlib

/-!
Verification of the JVC projector protocol client: a shallow embedding of
the wire codec, handshake, backoff, execution engine and scheduler queue,
with theorems checking the specified properties against the code.

Bytes are modelled as `List Nat` (each entry one byte value).
-/

namespace JvcSpec

/-- ASCII byte values of a string, as Python `str.encode()` produces for
ASCII-only literals such as the `b"PW"` byte strings in `commands.py`. -/
def ascii (s : String) : List Nat := s.toList.map Char.toNat

/-! ## Header and Footer enums (`commands.py`, classes `Header` and `Footer`) -/

/-- `Header.ack = b"\x06"` -/
def headerAck : List Nat := [0x06]

/-- `Header.pj_unit = b"\x89\x01"` -/
def pjUnit : List Nat := [0x89, 0x01]

/-- `Header.operation = b"!"` -/
def headerOperation : List Nat := ascii "!"

/-- `Header.reference = b"?"` -/
def headerReference : List Nat := ascii "?"

/-- `Header.response = b"@"` -/
def headerResponse : List Nat := ascii "@"

/-- `Footer.close = b"\x0A"` -/
def footerClose : List Nat := [0x0A]

/-! ## Handshake literals (`ACKs.greeting`, `ACKs.pj_ack`, `ACKs.pj_req`) -/

def PJ_OK : List Nat := ascii "PJ_OK"

def PJ_ACK : List Nat := ascii "PJACK"

def PJ_REQ : List Nat := ascii "PJREQ"

/-! ## Parameter enums (`commands.py`), each as a name-to-byte-code list,
mirroring the Python `Enum` classes member by member in source order. -/

def PowerModes : List (String × List Nat) :=
  [("off", ascii "0"), ("on", ascii "1"), ("cooling", ascii "2"),
   ("warming", ascii "3"), ("emergency", ascii "4")]

def InputModes : List (String × List Nat) :=
  [("hdmi1", ascii "6"), ("hdmi2", ascii "7")]

def PictureModes : List (String × List Nat) :=
  [("film", ascii "00"), ("cinema", ascii "01"), ("natural", ascii "03"),
   ("hdr", ascii "04"), ("hdr10", ascii "04"), ("thx", ascii "06"),
   ("frame_adapt_hdr", ascii "0B"), ("frame_adapt_hdr1", ascii "0B"),
   ("user1", ascii "0C"), ("user2", ascii "0D"), ("user3", ascii "0E"),
   ("user4", ascii "0F"), ("user5", ascii "10"), ("user6", ascii "11"),
   ("hlg", ascii "14"), ("hdr_plus", ascii "15"), ("hdr10_plus", ascii "15"),
   ("pana_pq", ascii "16"), ("filmmaker", ascii "17"),
   ("frame_adapt_hdr2", ascii "18"), ("frame_adapt_hdr3", ascii "19")]

def PictureModes3D : List (String × List Nat) :=
  [("natural", ascii "1"), ("user1", ascii "2"), ("user2", ascii "3"),
   ("user3", ascii "4"), ("cinema", ascii "8"), ("film", ascii "9"),
   ("last", ascii "F")]

def InstallationModes : List (String × List Nat) :=
  [("mode1", ascii "0"), ("mode2", ascii "1"), ("mode3", ascii "2"),
   ("mode4", ascii "3"), ("mode5", ascii "4"), ("mode6", ascii "5"),
   ("mode7", ascii "6"), ("mode8", ascii "7"), ("mode9", ascii "8"),
   ("mode10", ascii "9")]

def LowLatencyModes : List (String × List Nat) :=
  [("off", ascii "0"), ("on", ascii "1")]

def MotionEnhanceModes : List (String × List Nat) :=
  [("off", ascii "0"), ("low", ascii "1"), ("high", ascii "2")]

def GraphicModeModes : List (String × List Nat) :=
  [("standard", ascii "0"), ("hires1", ascii "1"), ("hires2", ascii "2")]

def MaskModes : List (String × List Nat) :=
  [("on", ascii "1"), ("off", ascii "2")]

def LaserPowerModes : List (String × List Nat) :=
  [("low", ascii "0"), ("med", ascii "2"), ("high", ascii "1")]

def MenuModes : List (String × List Nat) :=
  [("menu", ascii "2E"), ("lens_control", ascii "30"), ("up", ascii "01"),
   ("down", ascii "02"), ("back", ascii "03"), ("left", ascii "36"),
   ("right", ascii "34"), ("ok", ascii "2F")]

def LaserDimModes : List (String × List Nat) :=
  [("off", ascii "0"), ("auto1", ascii "1"), ("auto2", ascii "2"),
   ("auto3", ascii "3")]

def Numeric : List (String × List Nat) :=
  [("zero", ascii "0000"), ("one", ascii "0001"), ("two", ascii "0002"),
   ("three", ascii "0003"), ("four", ascii "0004"), ("five", ascii "0005"),
   ("six", ascii "0006"), ("seven", ascii "0007"), ("eight", ascii "0008"),
   ("nine", ascii "0009"), ("ten", ascii "000A")]

def ApertureModes : List (String × List Nat) :=
  [("off", ascii "0"), ("auto1", ascii "1"), ("auto2", ascii "2")]

def AnamorphicModes : List (String × List Nat) :=
  [("off", ascii "0"), ("a", ascii "1"), ("b", ascii "2"), ("c", ascii "3"),
   ("d", ascii "4")]

def ColorSpaceModes : List (String × List Nat) :=
  [("auto", ascii "0"), ("YCbCr444", ascii "1"), ("YCbCr422", ascii "2"),
   ("RGB", ascii "3")]

def InputLevel : List (String × List Nat) :=
  [("standard", ascii "0"), ("enhanced", ascii "1"),
   ("superwhite", ascii "2"), ("auto", ascii "3")]

def EshiftModes : List (String × List Nat) :=
  [("off", ascii "0"), ("on", ascii "1")]

def ContentTypes : List (String × List Nat) :=
  [("auto", ascii "0"), ("sdr", ascii "1"), ("hdr10_plus", ascii "2"),
   ("hdr10", ascii "3"), ("hlg", ascii "4")]

def ContentTypeTrans : List (String × List Nat) :=
  [("sdr", ascii "1"), ("hdr10_plus", ascii "2"), ("hdr10", ascii "3"),
   ("hlg", ascii "4")]

def HdrProcessing : List (String × List Nat) :=
  [("hdr10_plus", ascii "0"), ("static", ascii "1"),
   ("frame_by_frame", ascii "2"), ("scene_by_scene", ascii "3")]

def TheaterOptimizer : List (String × List Nat) :=
  [("off", ascii "0"), ("on", ascii "1")]

def LampPowerModes : List (String × List Nat) :=
  [("normal", ascii "0"), ("high", ascii "1")]

def HdrData : List (String × List Nat) :=
  [("sdr", ascii "0"), ("hdr", ascii "1"), ("smpte", ascii "2"),
   ("hybridlog", ascii "3"), ("hdr10_plus", ascii "4"), ("none", ascii "F")]

def HdrLevel : List (String × List Nat) :=
  [("auto", ascii "0"), ("min2", ascii "1"), ("min1", ascii "2"),
   ("zero", ascii "3"), ("plus1", ascii "4"), ("plus2", ascii "5")]

def AspectRatioModes : List (String × List Nat) :=
  [("zoom", ascii "2"), ("auto", ascii "3"), ("native", ascii "4")]

def SourceStatuses : List (String × List Nat) :=
  [("logo", [0x00]), ("no_signal", ascii "0"), ("signal", ascii "1")]

def ThreeD : List (String × List Nat) :=
  [("twoD", ascii "0"), ("auto", ascii "1"), ("sbs", ascii "3"),
   ("tb", ascii "4")]

def ResolutionModes : List (String × List Nat) :=
  [("r_480p", ascii "02"), ("r_576p", ascii "03"), ("r_720p50", ascii "04"),
   ("r_720p60", ascii "05"), ("r_1080i50", ascii "06"),
   ("r_1080i60", ascii "07"), ("r_1080p24", ascii "08"),
   ("r_1080p50", ascii "09"), ("r_1080p60", ascii "0A"),
   ("NoSignal", ascii "0B"), ("r_720p_3D", ascii "0C"),
   ("r_1080i_3D", ascii "0D"), ("r_1080p_3D", ascii "0E"),
   ("OutofRange", ascii "0F"), ("r_4K_4096p60", ascii "10"),
   ("r_4K_4096p50", ascii "11"), ("r_4K_4096p30", ascii "12"),
   ("r_4K_4096p25", ascii "13"), ("r_4K_4096p24", ascii "14"),
   ("r_4K_3840p60", ascii "15"), ("r_4K_3840p50", ascii "16"),
   ("r_4K_3840p30", ascii "17"), ("r_4K_3840p25", ascii "18"),
   ("r_4K_3840p24", ascii "19"), ("r_1080p25", ascii "1C"),
   ("r_1080p30", ascii "1D"), ("r_2048x1080p24", ascii "1E"),
   ("r_2048x1080p25", ascii "1F"), ("r_2048x1080p30", ascii "20"),
   ("r_2048x1080p50", ascii "21"), ("r_2048x1080p60", ascii "22"),
   ("r_3840x2160p120", ascii "23"), ("r_4096x2160p120", ascii "24"),
   ("VGA_640x480", ascii "25"), ("SVGA_800x600", ascii "26"),
   ("XGA_1024x768", ascii "27"), ("SXGA_1280x1024", ascii "28"),
   ("WXGA_1280x768", ascii "29"), ("WXGAplus_1440x900", ascii "2A"),
   ("WSXGAplus_1680x1050", ascii "2B"), ("WUXGA_1920x1200", ascii "2C"),
   ("WXGA_1280x800", ascii "2D"), ("FWXGA_1366x768", ascii "2E"),
   ("WXGAplus_1600x900", ascii "2F"), ("UXGA_1600x1200", ascii "30"),
   ("QXGA", ascii "31"), ("WOXGA", ascii "32"),
   ("r_4096x2160_100Hz", ascii "34"), ("r_3840x2160_100Hz", ascii "35"),
   ("r_1080p100", ascii "36"), ("r_1080p120", ascii "37"),
   ("r_8K_7680x4320p60", ascii "38"), ("r_8K_7680x4320p50", ascii "39"),
   ("r_8K_7680x4320p30", ascii "3A"), ("r_8K_7680x4320p25", ascii "3B"),
   ("r_8K_7680x4320p24", ascii "3C"), ("WQHD60", ascii "3D"),
   ("WOQHD120", ascii "3E"), ("r_8K_7680x4320p48", ascii "3F")]

/-! ## The command table (`commands.py`, class `Commands`) -/

/-- The parameter slot of a `Commands` tuple: either a parameter `Enum`
class (a closed name-to-byte-code set), the Python type `int`, or the
Python type `str`. -/
inductive ParamDomain
  | enumDom (vals : List (String × List Nat))
  | intDom
  | strDom
deriving DecidableEq

/-- One three-tuple entry of the `Commands` enum: wire code bytes,
parameter domain, and the ack code bytes (the `ACKs` member's value). -/
structure CmdEntry where
  code : List Nat
  domain : ParamDomain
  ack : List Nat
deriving DecidableEq

/-- The three-tuple members of `Commands`, in source order. -/
def commandTable : List (String × CmdEntry) :=
  [("power", ⟨ascii "PW", .enumDom PowerModes, ascii "PW"⟩),
   ("power_status", ⟨ascii "PW", .enumDom PowerModes, ascii "PW"⟩),
   ("installation_mode", ⟨ascii "INML", .enumDom InstallationModes, ascii "IN"⟩),
   ("input_mode", ⟨ascii "IP", .enumDom InputModes, ascii "IP"⟩),
   ("get_model", ⟨ascii "MD", .strDom, ascii "MD"⟩),
   ("get_software_version", ⟨ascii "IFSV", .strDom, ascii "IF"⟩),
   ("content_type", ⟨ascii "PMCT", .enumDom ContentTypes, ascii "PM"⟩),
   ("content_type_trans", ⟨ascii "PMAT", .enumDom ContentTypeTrans, ascii "PM"⟩),
   ("hdr_processing", ⟨ascii "PMHP", .enumDom HdrProcessing, ascii "PM"⟩),
   ("hdr_level", ⟨ascii "PMHL", .enumDom HdrLevel, ascii "PM"⟩),
   ("hdr_data", ⟨ascii "IFHR", .enumDom HdrData, ascii "IF"⟩),
   ("theater_optimizer", ⟨ascii "PMNM", .enumDom TheaterOptimizer, ascii "PM"⟩),
   ("picture_mode", ⟨ascii "PMPM", .enumDom PictureModes, ascii "PM"⟩),
   ("color_mode", ⟨ascii "ISHS", .enumDom ColorSpaceModes, ascii "IS"⟩),
   ("aspect_ratio", ⟨ascii "ISAS", .enumDom AspectRatioModes, ascii "IS"⟩),
   ("input_level", ⟨ascii "ISIL", .enumDom InputLevel, ascii "IS"⟩),
   ("low_latency", ⟨ascii "PMLL", .enumDom LowLatencyModes, ascii "PM"⟩),
   ("enhance", ⟨ascii "PMEN", .enumDom Numeric, ascii "PM"⟩),
   ("motion_enhance", ⟨ascii "PMME", .enumDom MotionEnhanceModes, ascii "PM"⟩),
   ("graphic_mode", ⟨ascii "PMGM", .enumDom GraphicModeModes, ascii "PM"⟩),
   ("mask", ⟨ascii "ISMA", .enumDom MaskModes, ascii "IS"⟩),
   ("laser_power", ⟨ascii "PMLP", .enumDom LaserPowerModes, ascii "PM"⟩),
   ("menu", ⟨ascii "RC73", .enumDom MenuModes, ascii "RC"⟩),
   ("laser_mode", ⟨ascii "PMDC", .enumDom LaserDimModes, ascii "PM"⟩),
   ("laser_value", ⟨ascii "PMCV", .intDom, ascii "PM"⟩),
   ("lamp_power", ⟨ascii "PMLP", .enumDom LampPowerModes, ascii "PM"⟩),
   ("lamp_time", ⟨ascii "IFLT", .intDom, ascii "IF"⟩),
   ("aperture", ⟨ascii "PMDI", .enumDom ApertureModes, ascii "PM"⟩),
   ("anamorphic", ⟨ascii "INVS", .enumDom AnamorphicModes, ascii "IN"⟩),
   ("eshift_mode", ⟨ascii "PMUS", .enumDom EshiftModes, ascii "PM"⟩),
   ("source_status", ⟨ascii "SC", .enumDom SourceStatuses, ascii "SC"⟩),
   ("source_disaply", ⟨ascii "IFIS", .enumDom ResolutionModes, ascii "IF"⟩),
   ("signal_3d", ⟨ascii "IS3D", .enumDom ThreeD, ascii "IS"⟩),
   ("signal_3d_phase", ⟨ascii "IS3P", .enumDom Numeric, ascii "IS"⟩),
   ("signal_3d_parallax", ⟨ascii "ISLV", .enumDom Numeric, ascii "IS"⟩),
   ("signal_3d_crosstalk", ⟨ascii "ISCA", .enumDom Numeric, ascii "IS"⟩),
   ("signal_3d_pm", ⟨ascii "ISS3", .enumDom PictureModes3D, ascii "IS"⟩),
   ("signal_2d_pm", ⟨ascii "ISS2", .enumDom PictureModes3D, ascii "IS"⟩)]

/-- The bare (non-tuple) members of `Commands`, whose value is a plain
byte string: `current_output`, `info`, `remote`. -/
def bareCommands : List (String × List Nat) :=
  [("current_output", ascii "IP"), ("info", ascii "RC7374"),
   ("remote", ascii "RC73")]

/-! ## String helpers mirroring the Python operations used by the codec -/

/-- First-match association lookup, as Python `Commands[name]` /
`SomeEnum[name]` member access by name behaves (member names are unique;
for value aliases the first binding wins, as in Python `Enum`). -/
def lookupByName {α : Type} : List (String × α) → String → Option α
  | [], _ => none
  | (k, e) :: rest, n => if k = n then some e else lookupByName rest n

/-- Python `value.lstrip(" ")`: drop leading space characters. -/
def lstripSpaces (s : String) : String :=
  String.mk (s.toList.dropWhile (fun c => c = ' '))

/-- Python `s.split(",")` on a character list: split at every comma,
keeping empty pieces. -/
def splitCommaAux : List Char → List Char → List (List Char)
  | acc, [] => [acc.reverse]
  | acc, c :: cs =>
    if c = ',' then acc.reverse :: splitCommaAux [] cs
    else splitCommaAux (c :: acc) cs

/-- Python `command, value = raw_command.split(",")`: succeeds exactly
when the split yields two pieces, otherwise raises `ValueError`. -/
def splitComma (s : String) : Option (String × String) :=
  match splitCommaAux [] s.toList with
  | [c, v] => some (String.mk c, String.mk v)
  | _ => none

/-! ## Frame construction -/

/-- Result of one call to a construct-command function.
`ok` carries the frame bytes and the ack code bytes; `notImplemented`
is the `("Not Implemented", False)` return; `noValue` is the
`("No value for command provided", False)` return; `raised` marks the
paths where the Python code lets an exception escape (KeyError for an
unknown enum member name, TypeError for subscripting `int`/`str`,
ValueError/TypeError when unpacking a non-tuple `Commands` member). -/
inductive ConstructResult
  | ok (frame : List Nat) (ack : List Nat)
  | notImplemented
  | noValue
  | raised
deriving DecidableEq

/-- `JVCProjector._async_construct_command` (`jvc_projector.py`):
split `raw_command` on the comma (no comma: return the error tuple),
check the command exists, then build
`command_type + pj_unit + code + param + footer`. -/
def async_construct_command (raw_command : String) (command_type : List Nat) :
    ConstructResult :=
  match splitComma raw_command with
  | none => .noValue
  | some (command, value) =>
    match lookupByName commandTable command with
    | none =>
      match lookupByName bareCommands command with
      | some _ => .raised
      | none => .notImplemented
    | some e =>
      match e.domain with
      | .enumDom vals =>
        match lookupByName vals (lstripSpaces value) with
        | none => .raised
        | some pb =>
          .ok (command_type ++ pjUnit ++ (e.code ++ pb) ++ footerClose) e.ack
      | .intDom => .raised
      | .strDom => .raised

/-- `JVCCommander.construct_command` (`command_runner.py`): same comma
path as `_async_construct_command`; on a comma-less input it falls back
to the single-command path `command_type + pj_unit + code + footer`
(which raises for unknown names and for the bare byte-string members). -/
def construct_command (raw_command : String) (command_type : List Nat) :
    ConstructResult :=
  match splitComma raw_command with
  | none =>
    match lookupByName commandTable raw_command with
    | some e => .ok (command_type ++ pjUnit ++ e.code ++ footerClose) e.ack
    | none => .raised
  | some (command, value) =>
    match lookupByName commandTable command with
    | none =>
      match lookupByName bareCommands command with
      | some _ => .raised
      | none => .notImplemented
    | some e =>
      match e.domain with
      | .enumDom vals =>
        match lookupByName vals (lstripSpaces value) with
        | none => .raised
        | some pb =>
          .ok (command_type ++ pjUnit ++ (e.code ++ pb) ++ footerClose) e.ack
      | .intDom => .raised
      | .strDom => .raised

/-! ## Framing removal (`JVCCommander.replace_headers`, also
`JVCProjector._async_replace_headers`) -/

/-- Left-to-right, non-overlapping removal of every occurrence of the
nonempty byte pattern `pat`, as Python `item.replace(header, b"")` does.
Structural recursion on a fuel bounded by the list length (each step
consumes at least one element, so `l.length` fuel always suffices). -/
def eraseOccFuel (pat : List Nat) : Nat → List Nat → List Nat
  | 0, l => l
  | _ + 1, [] => []
  | fuel + 1, x :: xs =>
    if pat.isPrefixOf (x :: xs) && !pat.isEmpty then
      eraseOccFuel pat fuel (xs.drop (pat.length - 1))
    else
      x :: eraseOccFuel pat fuel xs

/-- Python `item.replace(pat, b"")` for a nonempty `pat`. -/
def eraseOcc (pat l : List Nat) : List Nat := eraseOccFuel pat l.length l

/-- `JVCCommander.replace_headers`: strip every `Header` value and then
every `Footer` value (in enum order) from the byte string. -/
def replace_headers (item : List Nat) : List Nat :=
  [headerAck, pjUnit, headerOperation, headerReference, headerResponse,
   footerClose].foldl (fun acc h => eraseOcc h acc) item

/-- The expected acknowledgement frame built in `_do_command`:
`Header.ack.value + Header.pj_unit.value + ack + Footer.close.value`. -/
def ack_value (ack : List Nat) : List Nat :=
  headerAck ++ pjUnit ++ ack ++ footerClose

/-! ## Handshake (`JVCProjector._async_handshake`, `jvc_projector.py`) -/

/-- The non-deterministic inputs one handshake run can observe: the bytes
the first 5-byte read returned, whether draining the request write timed
out, and the bytes the second 5-byte read returned. -/
structure HandshakeEnv where
  greetRead : List Nat
  reqWriteOk : Bool
  ackRead : List Nat

/-- `JVCProjector._async_handshake` as a function of the observed reads.
Returns the success flag and the list of byte strings written to the
connection. The request literal is `PJ_REQ` plus `_` and the password
when a password is configured (nonempty). -/
def async_handshake (password : List Nat) (env : HandshakeEnv) :
    Bool × List (List Nat) :=
  let pj_req := if password.isEmpty then PJ_REQ else PJ_REQ ++ 0x5F :: password
  if env.greetRead ≠ PJ_OK then (false, [])
  else if !env.reqWriteOk then (false, [pj_req])
  else if env.ackRead ≠ PJ_ACK then (false, [pj_req])
  else (true, [pj_req])

/-! ## Reconnect backoff (`JVCProjector._increase_retry_interval` /
`_reset_retry_interval`, duplicated in `connection.py`) -/

/-- `self._retry_interval = min(300, 1.5 * self._retry_interval)`. -/
def increase_retry_interval (r : ℚ) : ℚ := min 300 (3 / 2 * r)

/-- `self._retry_interval = 1`. -/
def reset_retry_interval : ℚ := 1

/-- The retry interval after `n` consecutive connection failures,
starting from the initial `self._retry_interval = 1`. -/
def retryIntervalSeq : Nat → ℚ
  | 0 => 1
  | n + 1 => increase_retry_interval (retryIntervalSeq n)

/-! ## Scheduler queue (`test_loop.py`, `JVCRemote`) -/

/-- Ordering of `asyncio.PriorityQueue` entries `(priority, (seq, payload))`:
tuple comparison orders by priority first, then by the unique sequence id. -/
def queueItemLe (a b : Nat × Nat) : Bool :=
  decide (a.1 < b.1) || (decide (a.1 = b.1) && decide (a.2 ≤ b.2))

/-- Insert one item into the heap-ordered queue contents. -/
def pqInsert (x : Nat × Nat) : List (Nat × Nat) → List (Nat × Nat)
  | [] => [x]
  | y :: ys => if queueItemLe x y then x :: y :: ys else y :: pqInsert x ys

/-- Enqueue a list of items in arrival order and list them in the order
the single worker's successive `get()` calls pop them (smallest first). -/
def pqDrain (items : List (Nat × Nat)) : List (Nat × Nat) :=
  items.foldl (fun q x => pqInsert x q) []

/-- `JVCRemote.update_worker` backpressure test: the producer suspends
(sleeps and re-loops without enqueueing) exactly when
`self.command_queue.qsize() > 10`. -/
def update_worker_suspends (qsize : Nat) : Bool := decide (qsize > 10)

/-! ## Laser-value numeric encode -/

/-- Modelled from the spec: the laser-power numeric transform
`scaled = floor(1.1 * percent + 0.5) + 109`. The transform function
itself (`_decimal_to_signed_hex` and the coordinator encode path called
by `testLowLatency.py`) is not under `src/`; only its expected output is
pinned by the tests. Over naturals `floor(1.1 * p + 0.5)` is
`(11 * p + 5) / 10` with truncating division. -/
def laser_transform (percent : Nat) : Nat := (11 * percent + 5) / 10 + 109

/-- One uppercase hexadecimal digit as its ASCII byte. -/
def hexDigit (n : Nat) : Nat := if n < 10 then 48 + n else 55 + n

/-- A value rendered as the ASCII bytes of its 4-character uppercase
hexadecimal form, the wire payload format for numeric parameters. -/
def toHex4 (n : Nat) : List Nat :=
  [hexDigit (n / 4096 % 16), hexDigit (n / 256 % 16),
   hexDigit (n / 16 % 16), hexDigit (n % 16)]

/-- Outcome of encoding an integer-domain command value. -/
inductive LaserEncodeResult
  | ok (frame : List Nat)
  | valueOutOfRange
deriving DecidableEq

/-- Modelled from the spec: the integer-domain encode path for
`laser_value` (wire code `PMCV` from the `Commands` table) for percent
inputs; values outside the documented 0-100 device range fail with
`ValueOutOfRange` instead of wrapping. The encode path is not under
`src/`; the frame layout follows `testLowLatency.py` and the codec. -/
def encode_laser_value (percent : Nat) : LaserEncodeResult :=
  if percent ≤ 100 then
    .ok (headerOperation ++ pjUnit ++ ascii "PMCV"
          ++ toHex4 (laser_transform percent) ++ footerClose)
  else .valueOutOfRange

/-! ## Command execution (`JVCCommander._do_command`, `command_runner.py`) -/

/-- Outcome a single socket read can produce. -/
inductive ReadEvent
  | bytes (bs : List Nat)
  | timedOut
  | refused
deriving DecidableEq

/-- Outcome of writing the frame and draining the writer. -/
inductive WriteEvent
  | ok
  | brokenPipe
  | connReset
  | connError
deriving DecidableEq

/-- The error classes `_do_command` raises (`error_classes.py`). -/
inductive CmdError
  | connectionClosed
  | blankMessage
  | commandTimeout
  | connectionRefused
deriving DecidableEq

/-- The non-deterministic transport events one `_do_command` run observes. -/
structure DoCommandEnv where
  writerAlive : Bool
  writeResult : WriteEvent
  ackRead : ReadEvent
  refRead : ReadEvent

/-- `JVCCommander._do_command` as a function of the observed transport
events: a dead writer or any write error raises `ConnectionClosedError`;
a read timeout raises `CommandTimeoutError`; a blank first read raises
`BlankMessageError`; an operation returns the first read; a reference
does a second read and strips the expected ack frame from it. -/
def do_command (env : DoCommandEnv) (ack command_type : List Nat) :
    Except CmdError (List Nat) :=
  if !env.writerAlive then .error .connectionClosed
  else
    match env.writeResult with
    | .brokenPipe => .error .connectionClosed
    | .connReset => .error .connectionClosed
    | .connError => .error .connectionClosed
    | .ok =>
      match env.ackRead with
      | .timedOut => .error .commandTimeout
      | .refused => .error .connectionRefused
      | .bytes msg =>
        if msg = [] then .error .blankMessage
        else if command_type = headerOperation then .ok msg
        else
          match env.refRead with
          | .timedOut => .error .commandTimeout
          | .refused => .error .connectionRefused
          | .bytes ref => .ok (eraseOcc (ack_value ack) ref)

/-- The attribute-write step of `JVCRemote.handle_queue` for one poll
item: a getter timeout skips `setattr` and leaves the table untouched;
a returned value overwrites exactly the named slot. -/
def handle_poll_item (attrs : String → Option (List Nat)) (name : String)
    (res : Option (List Nat)) : String → Option (List Nat) :=
  match res with
  | none => attrs
  | some v => fun k => if k = name then some v else attrs k

/-! ## Bounded retry -/

/-- Outcome of one execution attempt as the retry loop classifies it. -/
inductive AttemptOutcome
  | success (v : List Nat)
  | transportFail
deriving DecidableEq

/-- The retry bound (spec design value 5). -/
def MAX_RETRIES : Nat := 5

/-- Result of a retried command execution. -/
inductive RetryResult
  | ok (v : List Nat)
  | retryExceeded
deriving DecidableEq

/-- Modelled from the spec: the bounded retry loop around one command
execution. The coordinator loop that counts attempts and raises
`CommandRetryExceededError` is not under `src/`; only the error class is
declared there (`errors.py`). `outcomes n` is what attempt `n` observes;
a transport failure moves to the next attempt until the fuel runs out. -/
def retry_from (outcomes : Nat → AttemptOutcome) : Nat → Nat → RetryResult
  | _, 0 => .retryExceeded
  | idx, fuel + 1 =>
    match outcomes idx with
    | .success v => .ok v
    | .transportFail => retry_from outcomes (idx + 1) fuel

/-- Modelled from the spec: run a command with at most `MAX_RETRIES`
attempts, surfacing `retryExceeded` when the bound is exhausted. -/
def send_command_with_retries (outcomes : Nat → AttemptOutcome) : RetryResult :=
  retry_from outcomes 0 MAX_RETRIES

/-! ## Helper lemmas -/

/-- The retry interval never drops below its initial value 1. -/
lemma one_le_retryIntervalSeq (n : Nat) : 1 ≤ retryIntervalSeq n := by
  induction n with
  | zero => exact le_refl 1
  | succ k ih =>
    simp only [retryIntervalSeq, increase_retry_interval]
    refine le_min (by norm_num) (by linarith)

/-- If every attempt in the fuel window fails at the transport level, the
retry loop exhausts its fuel and reports `retryExceeded`. -/
lemma retry_from_all_fail (outcomes : Nat → AttemptOutcome) :
    ∀ fuel idx, (∀ m, m < fuel → outcomes (idx + m) = .transportFail) →
      retry_from outcomes idx fuel = .retryExceeded := by
  intro fuel
  induction fuel with
  | zero => intro idx _; rfl
  | succ k ih =>
    intro idx h
    have h0 : outcomes idx = .transportFail := by
      simpa using h 0 (Nat.succ_pos k)
    simp only [retry_from, h0]
    refine ih (idx + 1) (fun m hm => ?_)
    have hx := h (m + 1) (by omega)
    rw [show idx + (m + 1) = idx + 1 + m from by omega] at hx
    exact hx

/-- If attempt `n` (inside the fuel window) succeeds after transport
failures only, the retry loop returns that attempt's value. -/
lemma retry_from_success (outcomes : Nat → AttemptOutcome) :
    ∀ fuel idx n v, n < fuel →
      (∀ m, m < n → outcomes (idx + m) = .transportFail) →
      outcomes (idx + n) = .success v →
      retry_from outcomes idx fuel = .ok v := by
  intro fuel
  induction fuel with
  | zero => intro idx n v hn; omega
  | succ k ih =>
    intro idx n v hn hfail hsucc
    cases n with
    | zero =>
      have h0 : outcomes idx = .success v := by simpa using hsucc
      simp [retry_from, h0]
    | succ m =>
      have h0 : outcomes idx = .transportFail := by
        simpa using hfail 0 (Nat.succ_pos m)
      simp only [retry_from, h0]
      refine ih (idx + 1) m v (by omega) (fun j hj => ?_) ?_
      · have hx := hfail (j + 1) (by omega)
        rw [show idx + (j + 1) = idx + 1 + j from by omega] at hx
        exact hx
      · rw [show idx + 1 + m = idx + (m + 1) from by omega]
        exact hsucc

/-! ## Claim theorems -/

/-- Claim C1: for the command string "power, on" with operation command
type, frame construction produces exactly the bytes
`! + 0x89 0x01 + "PW" + "1" + 0x0A`, and for "power, off" the same frame
with parameter byte `"0"`. -/
theorem power_frame_bytes :
    async_construct_command "power, on" headerOperation =
      .ok [0x21, 0x89, 0x01, 0x50, 0x57, 0x31, 0x0A] (ascii "PW")
    ∧ async_construct_command "power, off" headerOperation =
      .ok [0x21, 0x89, 0x01, 0x50, 0x57, 0x30, 0x0A] (ascii "PW") := by
  decide

/-- Claim C2: for every supported command in the table, stripping the
framing bytes from the expected acknowledgement frame
`0x06 + 0x89 0x01 + ackCode + 0x0A` yields back exactly the ack code the
encoder attached to that command. -/
theorem ack_roundtrip :
    ∀ p ∈ commandTable, replace_headers (ack_value p.2.ack) = p.2.ack := by
  decide

/-- Witness for C2 at the `power` command, ack code `PW`. -/
theorem ack_roundtrip_witness :
    replace_headers (ack_value (ascii "PW")) = ascii "PW" :=
  ack_roundtrip ("power", ⟨ascii "PW", .enumDom PowerModes, ascii "PW"⟩)
    (by decide)

/-- Claim C3: whenever the 5-byte greeting read differs from the literal
`PJ_OK`, the handshake reports failure and never writes the request
literal (or anything else) to the connection. -/
theorem handshake_wrong_greeting (password : List Nat) (env : HandshakeEnv)
    (_hlen : env.greetRead.length = 5) (hne : env.greetRead ≠ PJ_OK) :
    async_handshake password env = (false, []) := by
  simp [async_handshake, hne]

/-- Witness for C3 with the wrong greeting "XJ_OK". -/
theorem handshake_wrong_greeting_witness :
    (ascii "XJ_OK").length = 5 ∧ ascii "XJ_OK" ≠ PJ_OK
    ∧ async_handshake [] ⟨ascii "XJ_OK", true, ascii "PJACK"⟩ = (false, []) :=
  ⟨by decide, by decide,
   handshake_wrong_greeting [] ⟨ascii "XJ_OK", true, ascii "PJACK"⟩
     (by decide) (by decide)⟩

/-- Claim C4: starting from the initial retry interval 1, every failure
applies `min(300, 1.5 * r)`, so the interval strictly increases while it
is below the 300 cap and never exceeds 300; a success resets it to 1. -/
theorem backoff_monotone_capped_reset :
    (∀ n, retryIntervalSeq n < 300 → retryIntervalSeq n < retryIntervalSeq (n + 1))
    ∧ (∀ n, retryIntervalSeq n ≤ 300)
    ∧ reset_retry_interval = 1 := by
  refine ⟨fun n hn => ?_, fun n => ?_, rfl⟩
  · have h1 := one_le_retryIntervalSeq n
    simp only [retryIntervalSeq, increase_retry_interval]
    exact lt_min hn (by linarith)
  · cases n with
    | zero => norm_num [retryIntervalSeq]
    | succ k =>
      simp only [retryIntervalSeq, increase_retry_interval]
      exact min_le_left _ _

/-- Witness for C4: the first failure strictly increases the interval. -/
theorem backoff_monotone_capped_reset_witness :
    retryIntervalSeq 0 < retryIntervalSeq 1 :=
  backoff_monotone_capped_reset.1 0 (by norm_num [retryIntervalSeq])

/-- Claim C5: enqueueing (priority 0, seq 1), (priority 1, seq 2),
(priority 0, seq 3) in that order makes the worker drain them as
seq 1, seq 3, seq 2: FIFO inside a priority class, and priority 0 ahead
of priority 1. -/
theorem queue_drain_order :
    pqDrain [(0, 1), (1, 2), (0, 3)] = [(0, 1), (0, 3), (1, 2)]
    ∧ (pqDrain [(0, 1), (1, 2), (0, 3)]).map Prod.snd = [1, 3, 2] := by
  decide

/-- Counterexample to C6 as stated: at queue depth exactly 10 (at the
claimed threshold) the producer does not suspend, it still enqueues,
because the code tests `qsize() > 10`, not `>= 10`. -/
theorem backpressure_at_threshold_cex :
    ¬ (∀ q : Nat, 10 ≤ q → update_worker_suspends q = true) := by
  intro h
  exact absurd (h 10 (by decide)) (by decide)

/-- Claim C6 (amended): the producer suspends instead of enqueueing
exactly when queue depth is strictly greater than 10; at depth 10 or
below it enqueues the next poll item. -/
theorem backpressure_strictly_above :
    (∀ q, 11 ≤ q → update_worker_suspends q = true)
    ∧ (∀ q, q ≤ 10 → update_worker_suspends q = false) := by
  constructor <;> intro q h <;>
    simp only [update_worker_suspends, decide_eq_true_eq, decide_eq_false_iff_not] <;>
    omega

/-- Witness for the amended C6 at depths 11 and 10. -/
theorem backpressure_strictly_above_witness :
    update_worker_suspends 11 = true ∧ update_worker_suspends 10 = false :=
  ⟨backpressure_strictly_above.1 11 (by decide),
   backpressure_strictly_above.2 10 (by decide)⟩

/-- Claim C7: laser percent 50 scales to
`floor(1.1 * 50 + 0.5) + 109 = 164`, rendered as hex-ASCII `"00A4"`, so
the frame is `! + 0x89 0x01 + "PMCV" + "00A4" + 0x0A`; a percent above
the documented range fails with `ValueOutOfRange`. -/
theorem laser_value_encode :
    laser_transform 50 = 164
    ∧ toHex4 164 = ascii "00A4"
    ∧ encode_laser_value 50 =
      .ok [0x21, 0x89, 0x01, 0x50, 0x4D, 0x43, 0x56, 0x30, 0x30, 0x41, 0x34, 0x0A]
    ∧ (∀ p : Nat, 100 < p → encode_laser_value p = .valueOutOfRange) := by
  refine ⟨by decide, by decide, by decide, fun p hp => ?_⟩
  simp only [encode_laser_value]
  rw [if_neg (by omega)]

/-- Witness for C7 at percent 101. -/
theorem laser_value_encode_witness :
    encode_laser_value 101 = .valueOutOfRange :=
  laser_value_encode.2.2.2 101 (by decide)

/-- Claim C8: an ack-read timeout makes `_do_command` raise
`CommandTimeoutError` (surfaced to the caller), and a poll item whose
getter timed out writes nothing: the attribute table slot keeps exactly
its prior value. -/
theorem timeout_leaves_slot_unchanged :
    (∀ (env : DoCommandEnv) (ack ct : List Nat),
      env.writerAlive = true → env.writeResult = .ok →
      env.ackRead = .timedOut →
      do_command env ack ct = .error .commandTimeout)
    ∧ (∀ attrs name, handle_poll_item attrs name none = attrs) := by
  refine ⟨fun env ack ct h1 h2 h3 => ?_, fun attrs name => rfl⟩
  simp [do_command, h1, h2, h3]

/-- Witness for C8 with a concrete timed-out environment. -/
theorem timeout_leaves_slot_unchanged_witness :
    do_command ⟨true, .ok, .timedOut, .bytes []⟩ (ascii "PM") headerReference =
      .error .commandTimeout
    ∧ handle_poll_item (fun _ => none) "laser_value" none = (fun _ => none) :=
  ⟨timeout_leaves_slot_unchanged.1 ⟨true, .ok, .timedOut, .bytes []⟩
     (ascii "PM") headerReference rfl rfl rfl,
   timeout_leaves_slot_unchanged.2 (fun _ => none) "laser_value"⟩

/-- Claim C9: command execution retries transport failures at most
`MAX_RETRIES` (5) times; exhausting the bound surfaces `retryExceeded`
to the caller, while a success within the bound is returned normally. -/
theorem bounded_retry_surfaces :
    (∀ outcomes, (∀ n, n < MAX_RETRIES → outcomes n = .transportFail) →
      send_command_with_retries outcomes = .retryExceeded)
    ∧ (∀ outcomes n v, n < MAX_RETRIES →
      (∀ m, m < n → outcomes m = .transportFail) →
      outcomes n = .success v →
      send_command_with_retries outcomes = .ok v) := by
  constructor
  · intro outcomes h
    exact retry_from_all_fail outcomes MAX_RETRIES 0
      (fun m hm => by simpa using h m hm)
  · intro outcomes n v hn hf hs
    exact retry_from_success outcomes MAX_RETRIES 0 n v hn
      (fun m hm => by simpa using hf m hm) (by simpa using hs)

/-- Witness for C9: all-failing attempts exceed the bound; an immediate
success is returned. -/
theorem bounded_retry_surfaces_witness :
    send_command_with_retries (fun _ => .transportFail) = .retryExceeded
    ∧ send_command_with_retries (fun _ => .success (ascii "ok")) =
      .ok (ascii "ok") :=
  ⟨bounded_retry_surfaces.1 (fun _ => .transportFail) (fun _ _ => rfl),
   bounded_retry_surfaces.2 (fun _ => .success (ascii "ok")) 0 (ascii "ok")
     (by decide) (fun m hm => absurd hm (by omega)) rfl⟩

/-- Claim C10: whenever `_async_construct_command` succeeds on a
"name,value" input (known command, enumerated domain, value in domain),
`JVCCommander.construct_command` produces the identical frame bytes and
ack code. -/
theorem construct_variants_agree (raw : String) (ct frame ack : List Nat)
    (h : async_construct_command raw ct = .ok frame ack) :
    construct_command raw ct = .ok frame ack := by
  unfold async_construct_command at h
  unfold construct_command
  cases hs : splitComma raw with
  | none =>
    rw [hs] at h
    exact ConstructResult.noConfusion h
  | some cv =>
    obtain ⟨c, v⟩ := cv
    rw [hs] at h
    exact h

/-- Witness for C10 at "power, on". -/
theorem construct_variants_agree_witness :
    construct_command "power, on" headerOperation =
      .ok [0x21, 0x89, 0x01, 0x50, 0x57, 0x31, 0x0A] (ascii "PW") :=
  construct_variants_agree "power, on" headerOperation
    [0x21, 0x89, 0x01, 0x50, 0x57, 0x31, 0x0A] (ascii "PW") (by decide)

end JvcSpec
